import Mathlib

/-!
Shallow embedding of the `flow` repository's lane-change decision engine
(`flow/controllers/lane_change_controllers.py`) and the Bay Bridge
toll-plaza / ramp-meter coordinator (`flow/envs/bay_bridge/base.py`).

Python floats are modelled as rationals, Python lists as Lean lists and
Python dictionaries as association lists in insertion order.  External
simulator queries (`get_leader`, `get_x_by_id`, `get_cars`, ...) are
modelled as fields of a per-step observation record: the controllers are
pure functions of the answers those queries would return.
-/

namespace Flow

/-- Python's `%` on reals with a positive modulus: `x - L * floor (x / L)`,
always in `[0, L)` for `L > 0`. -/
def pymod (x L : ℚ) : ℚ := x - L * (⌊x / L⌋ : ℤ)

/-- Embedding of `np.mean` of a list of rationals (sum divided by length).  The Python
original returns NaN on an empty list; every use in this development is on
nonempty regions, where the two agree. -/
def npMean (xs : List ℚ) : ℚ := xs.sum / (xs.length : ℚ)

/-- Python's `max` over a nonempty list (left fold of binary `max` over the
list, seeded with its head).  On `[]`, where Python raises, it returns `0`. -/
def pymax (xs : List ℚ) : ℚ := xs.foldl max (xs.headD 0)

/-- Embedding of `np.argmax` / Python's `list.index(max(v))`: index of the first maximal
element. -/
def npArgmax (xs : List ℚ) : Nat := xs.indexOf (pymax xs)

/-- Python truthiness of an optional vehicle id: `None` and the empty
string are falsy. -/
def pyTruthy : Option String → Bool
  | none => false
  | some s => !(s == "")

end Flow

namespace Flow

/-- Parameters of `StochasticLaneChanger.__init__` (and of the
`stochastic_lane_changer` closure): `speedThreshold`, `prob`, `dxBack`,
`dxForward`, `gapBack`, `gapForward`.  `dxBack`/`dxForward` only
parameterise the external `get_cars` query, which is modelled as the
`regionSpeeds` observation below, so they carry no further role here. -/
structure StochParams where
  speedThreshold : ℚ := 5
  prob : ℚ := 1/2
  gapBack : ℚ := 10
  gapForward : ℚ := 5

/-- Snapshot of every simulator query the stochastic lane changers issue
for one vehicle in one step.

* `leader` / `follower` — `env.vehicles.get_leader/get_follower(veh_id)`
  (no lane argument: the vehicle's own current leader and follower);
* `leadingCar` / `trailingCar` — `env.get_leading_car/get_trailing_car(veh_id, lane)`
  as used by the module-level `stochastic_lane_changer` closure;
* `posOf` — `env.get_x_by_id`;
* `regionSpeeds lane` — the speeds of the vehicles returned by
  `env.get_cars(veh_id, dxBack, dxForward, lane)`. -/
structure StochEnv where
  lanes : Nat
  courseLen : ℚ
  curLane : Nat
  maxSpeed : ℚ
  leader : Option String
  follower : Option String
  leadingCar : Nat → Option String
  trailingCar : Nat → Option String
  thisPos : ℚ
  posOf : String → ℚ
  regionSpeeds : Nat → List ℚ

namespace StochasticLaneChanger

/-- One iteration of the lane loop of `StochasticLaneChanger.get_action`
(the class version, lines 53–108 and its byte-identical shadow 122–177):
note that `leadID`/`trailID` come from `get_leader`/`get_follower` of the
vehicle itself — the `lane` loop variable is used only for `get_cars`. -/
def laneSpeed (p : StochParams) (e : StochEnv) (lane : Nat) : ℚ :=
  let leadID := e.leader
  let trailID := e.follower
  if !(pyTruthy leadID) || !(pyTruthy trailID) then
    e.maxSpeed
  else
    let leadPos := e.posOf (leadID.getD "")
    let trailPos := e.posOf (trailID.getD "")
    let headway := pymod (leadPos - e.thisPos) e.courseLen
    let footway := pymod (e.thisPos - trailPos) e.courseLen
    if headway < p.gapForward ∨ footway < p.gapBack then 0
    else npMean (e.regionSpeeds lane)

/-- Embedding of `StochasticLaneChanger.get_action` (the class at lines 42–108).  The
random draw `random.random()` is passed in as `draw`. -/
def getAction (p : StochParams) (e : StochEnv) (draw : ℚ) : Nat :=
  let v := (List.range e.lanes).map (laneSpeed p e)
  let maxv := pymax v
  let maxl := v.indexOf maxv
  let myv := v.getD e.curLane 0
  if maxl ≠ e.curLane ∧ maxv - myv > p.speedThreshold ∧ draw < p.prob then maxl
  else e.curLane

end StochasticLaneChanger

namespace StochasticLaneChangerShadow

/-- The second, byte-for-byte identical `StochasticLaneChanger` class
(lines 111–177), which shadows the first at module load.  Re-embedded
independently from its own source text. -/
def laneSpeed (p : StochParams) (e : StochEnv) (lane : Nat) : ℚ :=
  let leadID := e.leader
  let trailID := e.follower
  if !(pyTruthy leadID) || !(pyTruthy trailID) then
    e.maxSpeed
  else
    let leadPos := e.posOf (leadID.getD "")
    let trailPos := e.posOf (trailID.getD "")
    let headway := pymod (leadPos - e.thisPos) e.courseLen
    let footway := pymod (e.thisPos - trailPos) e.courseLen
    if headway < p.gapForward ∨ footway < p.gapBack then 0
    else npMean (e.regionSpeeds lane)

/-- Embedding of `get_action` of the shadowing class (lines 122–177). -/
def getAction (p : StochParams) (e : StochEnv) (draw : ℚ) : Nat :=
  let v := (List.range e.lanes).map (laneSpeed p e)
  let maxv := pymax v
  let maxl := v.indexOf maxv
  let myv := v.getD e.curLane 0
  if maxl ≠ e.curLane ∧ maxv - myv > p.speedThreshold ∧ draw < p.prob then maxl
  else e.curLane

end StochasticLaneChangerShadow

namespace StochasticClosure

/-- One iteration of the lane loop of the `controller` closure returned by
the module-level `stochastic_lane_changer` factory (lines 262–313): here
the leader and follower are queried per lane, via
`env.get_leading_car(carID, lane)` / `env.get_trailing_car(carID, lane)`. -/
def laneSpeed (p : StochParams) (e : StochEnv) (lane : Nat) : ℚ :=
  let leadID := e.leadingCar lane
  let trailID := e.trailingCar lane
  if !(pyTruthy leadID) || !(pyTruthy trailID) then
    e.maxSpeed
  else
    let leadPos := e.posOf (leadID.getD "")
    let trailPos := e.posOf (trailID.getD "")
    let headway := pymod (leadPos - e.thisPos) e.courseLen
    let footway := pymod (e.thisPos - trailPos) e.courseLen
    if headway < p.gapForward ∨ footway < p.gapBack then 0
    else npMean (e.regionSpeeds lane)

end StochasticClosure

/-- Snapshot of the simulator queries the aggressive lane changers issue:
the vehicle's speed (`env.vehicles.get_speed`), its current lane
(`env.vehicles.get_lane`) and the per-lane forward and reverse gaps
returned by `env.get_leader_blocker_headways(veh_id)`. -/
structure AggrEnv where
  speed : ℚ
  curLane : Nat
  headways : List ℚ
  reverseHeadways : List ℚ

namespace AggressiveLaneChanger

/-- Embedding of `self.threshold_velocity = target_velocity * threshold` from
`AggressiveLaneChanger.__init__` (default `threshold = 0.75`). -/
def thresholdVelocity (targetVelocity threshold : ℚ) : ℚ :=
  targetVelocity * threshold

/-- Embedding of `AggressiveLaneChanger.get_action` (lines 195–212): when slower than
the threshold velocity, move to the lane with the largest forward gap
unless its rear gap is under 5. -/
def getAction (tv : ℚ) (e : AggrEnv) : Nat :=
  if e.speed < tv then
    let desiredLane := npArgmax e.headways
    if e.reverseHeadways.getD desiredLane 0 < 5 then e.curLane
    else desiredLane
  else e.curLane

end AggressiveLaneChanger

namespace SafeAggressiveLaneChanger

/-- The candidate computation inside `SafeAggressiveLaneChanger.get_action`
(lines 234–237).  `available_lanes = range(max(curr_lane-1,0),
min(curr_lane+1, lanes)+1)`; `available_headways` is the matching Python
slice of `headways` (slices clamp at the list length, `range` does not);
the candidate is `available_lanes[argmax(available_headways)]`.  Python's
`max(curr_lane - 1, 0)` on ints coincides with truncated `Nat`
subtraction. -/
def desiredLane (lanes : Nat) (e : AggrEnv) : Nat :=
  let lo := max (e.curLane - 1) 0
  let hi := min (e.curLane + 1) lanes
  let availableLanes := List.range' lo (hi + 1 - lo)
  let availableHeadways := (e.headways.drop lo).take (hi + 1 - lo)
  availableLanes.getD (npArgmax availableHeadways) 0

/-- Embedding of `SafeAggressiveLaneChanger.get_action` (lines 229–244): same as the
aggressive controller but restricted to adjacent lanes and with rear-gap
safety minimum 8. -/
def getAction (tv : ℚ) (lanes : Nat) (e : AggrEnv) : Nat :=
  if e.speed < tv then
    let desired := desiredLane lanes e
    if e.reverseHeadways.getD desired 0 < 8 then e.curLane
    else desired
  else e.curLane

end SafeAggressiveLaneChanger

/-! ### Elementary facts about `pymax` and `npArgmax` -/

theorem le_foldl_max (xs : List ℚ) (b : ℚ) : b ≤ xs.foldl max b := by
  induction xs generalizing b with
  | nil => exact le_refl b
  | cons y ys ih => exact le_trans (le_max_left b y) (ih (max b y))

theorem mem_le_foldl_max (xs : List ℚ) : ∀ (b x : ℚ), x ∈ xs → x ≤ xs.foldl max b := by
  induction xs with
  | nil => intro b x hx; cases hx
  | cons y ys ih =>
    intro b x hx
    rcases List.mem_cons.mp hx with h | h
    · subst h
      exact le_trans (le_max_right b x) (le_foldl_max ys (max b x))
    · exact ih (max b y) x h

theorem foldl_max_mem (xs : List ℚ) (b : ℚ) :
    xs.foldl max b = b ∨ xs.foldl max b ∈ xs := by
  induction xs generalizing b with
  | nil => exact Or.inl rfl
  | cons y ys ih =>
    rcases ih (max b y) with h | h
    · rcases le_total b y with hby | hyb
      · right
        rw [List.foldl_cons, h, max_eq_right hby]
        exact List.mem_cons_self y ys
      · left
        rw [List.foldl_cons, h, max_eq_left hyb]
    · right
      exact List.mem_cons_of_mem y h

theorem le_pymax (xs : List ℚ) (x : ℚ) (hx : x ∈ xs) : x ≤ pymax xs :=
  mem_le_foldl_max xs (xs.headD 0) x hx

theorem pymax_mem (xs : List ℚ) (h : xs ≠ []) : pymax xs ∈ xs := by
  cases xs with
  | nil => exact absurd rfl h
  | cons y ys =>
    rcases foldl_max_mem (y :: ys) ((y :: ys).headD 0) with h' | h'
    · rw [pymax, h']
      exact List.mem_cons_self y ys
    · exact h'

theorem npArgmax_lt_length (xs : List ℚ) (h : xs ≠ []) :
    npArgmax xs < xs.length :=
  List.indexOf_lt_length.mpr (pymax_mem xs h)

theorem getD_npArgmax (xs : List ℚ) (h : xs ≠ []) :
    xs.getD (npArgmax xs) 0 = pymax xs := by
  rw [List.getD_eq_getElem xs 0 (npArgmax_lt_length xs h)]
  exact List.getElem_indexOf (npArgmax_lt_length xs h)

theorem getD_le_pymax (xs : List ℚ) (i : Nat) (hi : i < xs.length) :
    xs.getD i 0 ≤ pymax xs := by
  rw [List.getD_eq_getElem xs 0 hi]
  exact le_pymax xs _ (List.getElem_mem hi)

/-! ### Bay Bridge toll plaza and ramp meter (`flow/envs/bay_bridge/base.py`) -/

def EDGE_BEFORE_TOLL : String := "gneE3"

def TB_TL_ID : String := "gneJ4"

def EDGE_AFTER_TOLL : String := "340686911#0.54.0"

def NUM_TOLL_LANES : Nat := 20

def TOLL_BOOTH_AREA : ℚ := 100

def EDGE_BEFORE_RAMP_METER : String := "340686911#0.54.54.0"

def EDGE_AFTER_RAMP_METER : String := "340686911#0.54.54.127.0"

def NUM_RAMP_METERS : Nat := 14

def RAMP_METER_AREA : ℚ := 80

/-- The source's `FAST_TRACK_ON = range(6, 11)`. -/
def FAST_TRACK_ON : List Nat := List.range' 6 5

/-- An entry of `cars_waiting_for_toll` / `cars_before_ramp`: the
lane-change mode and color saved when the vehicle was registered. -/
structure Saved where
  mode : Int
  color : Int × Int × Int × Int
deriving DecidableEq

/-- The per-step simulator view of one vehicle: its edge
(`get_edge`), lane (`get_lane`), position along the edge (`get_position`),
current lane-change mode (`get_lane_change_mode`) and current color
(`traci getColor`). -/
structure VehObs where
  edge : String
  lane : Nat
  pos : ℚ
  lcMode : Int
  color : Int × Int × Int × Int
deriving DecidableEq

/-- One step's observation: all live vehicles in `get_ids` order together
with the values of the random normal draws the step would consume when a
released vehicle's lane is resampled (`drawFast` for a fast-track lane,
`drawRegular` otherwise).  A vehicle absent from `vehs` has left the
network. -/
structure Obs where
  vehs : List (String × VehObs)
  drawRegular : String → ℚ
  drawFast : String → ℚ

/-- Association-list lookup, mirroring Python `dict` access (keys are
unique in a real dict; first match wins here). -/
def alookup {α : Type} : List (String × α) → String → Option α
  | [], _ => none
  | (k, a) :: rest, key => if k = key then some a else alookup rest key

/-- The simulator view of vehicle `v` this step; a departed vehicle reads
as a dummy record on the empty edge. -/
def obsOf (o : Obs) (v : String) : VehObs :=
  (alookup o.vehs v).getD { edge := "", lane := 0, pos := 0, lcMode := 0, color := (0, 0, 0, 0) }

/-- The commands this layer sends to the simulator control interface. -/
inductive Command where
  | setColor (veh : String) (c : Int × Int × Int × Int)
  | setLaneChangeMode (veh : String) (m : Int)
  | setTrafficLight (tls : String) (tlState : String)
deriving DecidableEq

/-- The vehicle a command addresses, if any. -/
def Command.vehOf : Command → Option String
  | .setColor v _ => some v
  | .setLaneChangeMode v _ => some v
  | .setTrafficLight _ _ => none

/-- The mutable state `BayBridgeEnv` threads across steps: the two wait
registries, the per-toll-lane wait counters and the last traffic-light
string.  (`__init__` sets `tl_state = ""` and samples `toll_wait_time`.) -/
structure BridgeState where
  carsWaitingForToll : List (String × Saved)
  carsBeforeRamp : List (String × Saved)
  tollWaitTime : List ℚ
  tlState : String

/-- The source's `self.edge_dict[edge][lane]` as rebuilt by `additional_command` each
step: the `(veh_id, pos)` pairs of the vehicles on `edge` in `lane`, in
`get_ids` order. -/
def carsInLane (o : Obs) (edge : String) (lane : Nat) : List (String × ℚ) :=
  o.vehs.filterMap fun p =>
    if p.2.edge = edge ∧ p.2.lane = lane then some (p.1, p.2.pos) else none

/-- Release of one vehicle observed on `EDGE_AFTER_TOLL` in the first loop
of `_apply_toll_bridge_control`: restore its saved color and lane-change
mode and resample its current lane's wait time (regular or fast-track
normal draw, clamped at 0 by `max(0, ...)`). -/
def tollReleaseCar (o : Obs) (veh : String) (sv : Saved)
    (acc : List ℚ × List Command) : List ℚ × List Command :=
  let lane := (obsOf o veh).lane
  let wait := acc.1
  let wait' :=
    if lane ∈ FAST_TRACK_ON then wait.set lane (max 0 (o.drawFast veh))
    else wait.set lane (max 0 (o.drawRegular veh))
  (wait', acc.2 ++ [Command.setColor veh sv.color, Command.setLaneChangeMode veh sv.mode])

/-- The first loop of `_apply_toll_bridge_control` plus the subsequent
deletion loop: process every registered vehicle observed past the toll, in
registry (dict-insertion) order, then drop them from the registry. -/
def tollPhase1 (s : BridgeState) (o : Obs) :
    List (String × Saved) × List ℚ × List Command :=
  let released := s.carsWaitingForToll.filter fun p => (obsOf o p.1).edge = EDGE_AFTER_TOLL
  let acc := released.foldl (fun acc p => tollReleaseCar o p.1 p.2 acc) (s.tollWaitTime, [])
  let remaining := s.carsWaitingForToll.filter fun p => ¬ (obsOf o p.1).edge = EDGE_AFTER_TOLL
  (remaining, acc.1, acc.2)

/-- The body of the per-vehicle loop in the second half of
`_apply_toll_bridge_control`, threading
`(cars_waiting_for_toll, traffic_light_states, toll_wait_time, commands)`:
a vehicle past `TOLL_BOOTH_AREA` is registered if unknown (current mode
and color saved, lane changing disabled, recolored); a known vehicle past
position `120` turns its lane green when the lane's wait time is negative,
otherwise red with the wait time decremented. -/
def tollProcessCar (o : Obs) (lane : Nat)
    (st : List (String × Saved) × List Char × List ℚ × List Command)
    (car : String × ℚ) :
    List (String × Saved) × List Char × List ℚ × List Command :=
  let m := st.1
  let tl := st.2.1
  let wait := st.2.2.1
  let acts := st.2.2.2
  let veh := car.1
  let pos := car.2
  if pos > TOLL_BOOTH_AREA then
    if alookup m veh = none then
      let sv : Saved := { mode := (obsOf o veh).lcMode, color := (obsOf o veh).color }
      (m ++ [(veh, sv)], tl, wait,
        acts ++ [Command.setLaneChangeMode veh 512, Command.setColor veh (255, 0, 255, 0)])
    else if pos > 120 then
      if wait.getD lane 0 < 0 then (m, tl.set lane 'G', wait, acts)
      else (m, tl.set lane 'r', wait.set lane (wait.getD lane 0 - 1), acts)
    else st
  else st

/-- The second half of `_apply_toll_bridge_control`: start from
`["G"] * NUM_TOLL_LANES` and fold the per-vehicle body over every toll
lane's vehicles on `EDGE_BEFORE_TOLL`. -/
def tollPhase2 (o : Obs) (m : List (String × Saved)) (wait : List ℚ) :
    List (String × Saved) × List Char × List ℚ × List Command :=
  (List.range NUM_TOLL_LANES).foldl
    (fun st lane => (carsInLane o EDGE_BEFORE_TOLL lane).foldl (tollProcessCar o lane) st)
    (m, List.replicate NUM_TOLL_LANES 'G', wait, [])

/-- The source's `new_tls_state` (the join of `traffic_light_states`): the traffic-light
string the step rebuilds (the per-lane one-character strings become the
characters of the joined string). -/
def tollNewTls (s : BridgeState) (o : Obs) : String :=
  ⟨(tollPhase2 o (tollPhase1 s o).1 (tollPhase1 s o).2.1).2.1⟩

/-- The whole of `_apply_toll_bridge_control` for one step: releases, then
registration / signal timing, then pushing the joined light string iff it
changed.  Returns the new state together with the commands sent to the
simulator, in order. -/
def tollStep (s : BridgeState) (o : Obs) : BridgeState × List Command :=
  let ph1 := tollPhase1 s o
  let ph2 := tollPhase2 o ph1.1 ph1.2.1
  let newTls := tollNewTls s o
  let s' : BridgeState :=
    { s with
      carsWaitingForToll := ph2.1
      tollWaitTime := ph2.2.2.1 }
  if newTls ≠ s.tlState then
    ({ s' with tlState := newTls },
      ph1.2.2 ++ ph2.2.2.2 ++ [Command.setTrafficLight TB_TL_ID newTls])
  else (s', ph1.2.2 ++ ph2.2.2.2)

/-- Python dict assignment `d[k] = a`: replace in place if the key exists,
else append. -/
def upsert (m : List (String × Saved)) (k : String) (a : Saved) : List (String × Saved) :=
  if (alookup m k).isSome then m.map (fun p => if p.1 = k then (k, a) else p)
  else m ++ [(k, a)]

/-- The body of the per-vehicle loop of `ramp_meter_lane_change_control`,
threading `(cars_before_ramp, commands)`.  NOTE (faithful to the source):
the membership test is against `cars_waiting_for_toll` — the TOLL
registry — not `cars_before_ramp`, so it is passed separately and read
only. -/
def rampProcessCar (o : Obs) (tollMap : List (String × Saved))
    (st : List (String × Saved) × List Command) (car : String × ℚ) :
    List (String × Saved) × List Command :=
  let m := st.1
  let acts := st.2
  let veh := car.1
  let pos := car.2
  if pos > RAMP_METER_AREA then
    if alookup tollMap veh = none then
      (upsert m veh { mode := (obsOf o veh).lcMode, color := (obsOf o veh).color },
        acts ++ [Command.setLaneChangeMode veh 512, Command.setColor veh (0, 255, 255, 0)])
    else st
  else st

/-- Embedding of `ramp_meter_lane_change_control` for one step: restore and drop every
registered vehicle observed past the ramp meter, then run the
registration loop over the pre-ramp lanes. -/
def rampStep (s : BridgeState) (o : Obs) : BridgeState × List Command :=
  let released := s.carsBeforeRamp.filter fun p => (obsOf o p.1).edge = EDGE_AFTER_RAMP_METER
  let acts1 := released.foldl
    (fun acts p => acts ++ [Command.setColor p.1 p.2.color, Command.setLaneChangeMode p.1 p.2.mode])
    []
  let remaining := s.carsBeforeRamp.filter fun p => ¬ (obsOf o p.1).edge = EDGE_AFTER_RAMP_METER
  let res := (List.range NUM_RAMP_METERS).foldl
    (fun st lane =>
      (carsInLane o EDGE_BEFORE_RAMP_METER lane).foldl
        (rampProcessCar o s.carsWaitingForToll) st)
    (remaining, acts1)
  ({ s with carsBeforeRamp := res.1 }, res.2)

/-! ### C10: the two `StochasticLaneChanger` classes compute the same function -/

/-- C10: the two byte-for-byte identical definitions of
`StochasticLaneChanger` in the lane-change module (lines 42–108 and
111–177, the later shadowing the earlier) compute the same `get_action`:
for every environment snapshot and every outcome of the random draw they
return the same lane. -/
theorem stochastic_duplicate_classes_equiv (p : StochParams) (e : StochEnv) (draw : ℚ) :
    StochasticLaneChangerShadow.getAction p e draw =
      StochasticLaneChanger.getAction p e draw := rfl

/-! ### C1: per-lane speed estimation actually ignores the lane's own gaps -/

/-- The spec's scenario for the stochastic controller: two lanes on a ring
of length 200, vehicle at position 0 in lane 0; lane 0's own leader gap
is 3 (below `gapForward = 5`), lane 1's own leader gap is 80 with a
regional mean speed of 12; both followers are 10 and 50 behind
(at or above `gapBack = 10`). -/
def envC1 : StochEnv where
  lanes := 2
  courseLen := 200
  curLane := 0
  maxSpeed := 30
  leader := some "A"
  follower := some "B"
  leadingCar := fun lane => if lane = 0 then some "A" else some "C"
  trailingCar := fun lane => if lane = 0 then some "B" else some "D"
  thisPos := 0
  posOf := fun s =>
    if s = "A" then 3 else if s = "C" then 80 else
    if s = "B" then 190 else if s = "D" then 150 else 0
  regionSpeeds := fun lane => if lane = 0 then [0] else [12]

/-- C1 (code bug, evaluated at the failing input): because
`StochasticLaneChanger.get_action` queries `get_leader`/`get_follower`
without a lane argument, lane 1 is scored with lane 0's leader gap of 3
and receives estimated speed 0 — even though lane 1's own leader gap is
80 and its regional mean speed is 12, as the per-lane
`stochastic_lane_changer` closure in the same module computes. -/
theorem stochastic_class_scores_all_lanes_from_own_gap :
    StochasticLaneChanger.laneSpeed {} envC1 0 = 0 ∧
    StochasticLaneChanger.laneSpeed {} envC1 1 = 0 ∧
    StochasticClosure.laneSpeed {} envC1 0 = 0 ∧
    StochasticClosure.laneSpeed {} envC1 1 = 12 := by
  refine ⟨?_, ?_, ?_, ?_⟩ <;>
    · simp [StochasticLaneChanger.laneSpeed, StochasticClosure.laneSpeed, envC1, pyTruthy]
      norm_num [pymod, npMean]

/-! ### C8: the aggressive controller -/

/-- C8: whenever the vehicle is below its threshold velocity, the
candidate lane `np.argmax(headways)` carries a maximal forward gap; if
that lane's rear gap is below the safety minimum of 5 the controller
returns the current lane, and otherwise it returns the candidate. -/
theorem aggressive_below_threshold_spec (tv : ℚ) (e : AggrEnv)
    (hne : e.headways ≠ []) (hslow : e.speed < tv) :
    (∀ i, i < e.headways.length →
      e.headways.getD i 0 ≤ e.headways.getD (npArgmax e.headways) 0) ∧
    (e.reverseHeadways.getD (npArgmax e.headways) 0 < 5 →
      AggressiveLaneChanger.getAction tv e = e.curLane) ∧
    (¬ e.reverseHeadways.getD (npArgmax e.headways) 0 < 5 →
      AggressiveLaneChanger.getAction tv e = npArgmax e.headways) := by
  refine ⟨?_, ?_, ?_⟩
  · intro i hi
    rw [getD_npArgmax e.headways hne]
    exact getD_le_pymax e.headways i hi
  · intro hblock
    simp only [AggressiveLaneChanger.getAction]
    rw [if_pos hslow, if_pos hblock]
  · intro hfree
    simp only [AggressiveLaneChanger.getAction]
    rw [if_pos hslow, if_neg hfree]

/-- A concrete snapshot for the aggressive controller: slow vehicle in
lane 0, largest forward gap in lane 2, whose rear gap 3 is below the
safety minimum of 5. -/
def envC8 : AggrEnv where
  speed := 4
  curLane := 0
  headways := [10, 20, 50]
  reverseHeadways := [6, 9, 3]

/-- Witness for `aggressive_below_threshold_spec` at `envC8` with
threshold velocity 6: the candidate is lane 2, its rear gap 3 is below 5,
and the controller stays in lane 0. -/
theorem aggressive_below_threshold_spec_witness :
    envC8.headways ≠ [] ∧ envC8.speed < 6 ∧
    ((∀ i, i < envC8.headways.length →
        envC8.headways.getD i 0 ≤ envC8.headways.getD (npArgmax envC8.headways) 0) ∧
      (envC8.reverseHeadways.getD (npArgmax envC8.headways) 0 < 5 →
        AggressiveLaneChanger.getAction 6 envC8 = envC8.curLane) ∧
      (¬ envC8.reverseHeadways.getD (npArgmax envC8.headways) 0 < 5 →
        AggressiveLaneChanger.getAction 6 envC8 = npArgmax envC8.headways)) := by
  refine ⟨?_, ?_, aggressive_below_threshold_spec 6 envC8 ?_ ?_⟩ <;>
    · simp [envC8]
      try norm_num

/-! ### C9: the safe-aggressive controller -/

theorem safe_desiredLane_bounds (lanes : Nat) (e : AggrEnv)
    (hcur : e.curLane < lanes) (hlen : e.headways.length = lanes) :
    SafeAggressiveLaneChanger.desiredLane lanes e < lanes ∧
    e.curLane - 1 ≤ SafeAggressiveLaneChanger.desiredLane lanes e ∧
    SafeAggressiveLaneChanger.desiredLane lanes e ≤ e.curLane + 1 := by
  unfold SafeAggressiveLaneChanger.desiredLane
  have hlo : max (e.curLane - 1) 0 = e.curLane - 1 := max_eq_left (Nat.zero_le _)
  have hhi : min (e.curLane + 1) lanes = e.curLane + 1 := min_eq_left (by omega)
  rw [hlo, hhi]
  have hlenAvail :
      ((e.headways.drop (e.curLane - 1)).take (e.curLane + 1 + 1 - (e.curLane - 1))).length =
        min (e.curLane + 1 + 1 - (e.curLane - 1)) (lanes - (e.curLane - 1)) := by
    rw [List.length_take, List.length_drop, hlen]
  have hpos :
      0 < ((e.headways.drop (e.curLane - 1)).take (e.curLane + 1 + 1 - (e.curLane - 1))).length := by
    rw [hlenAvail]
    omega
  have hargLt :
      npArgmax ((e.headways.drop (e.curLane - 1)).take (e.curLane + 1 + 1 - (e.curLane - 1))) <
        min (e.curLane + 1 + 1 - (e.curLane - 1)) (lanes - (e.curLane - 1)) := by
    rw [← hlenAvail]
    exact npArgmax_lt_length _ (List.ne_nil_of_length_pos hpos)
  have hargRange :
      npArgmax ((e.headways.drop (e.curLane - 1)).take (e.curLane + 1 + 1 - (e.curLane - 1))) <
        (List.range' (e.curLane - 1) (e.curLane + 1 + 1 - (e.curLane - 1))).length := by
    rw [List.length_range']
    omega
  rw [List.getD_eq_getElem _ 0 hargRange, List.getElem_range'_1 _ hargRange]
  omega

/-- C9: the safe-aggressive controller always returns a valid lane index
within one of the current lane, and when the vehicle is below its
threshold velocity it abandons the adjacent candidate in favor of the
current lane whenever the candidate's rear gap is below the safety
minimum of 8 (the aggressive controller's minimum is 5). -/
theorem safe_aggressive_adjacent_spec (tv : ℚ) (lanes : Nat) (e : AggrEnv)
    (hcur : e.curLane < lanes) (hlen : e.headways.length = lanes) :
    (SafeAggressiveLaneChanger.getAction tv lanes e < lanes ∧
     e.curLane - 1 ≤ SafeAggressiveLaneChanger.getAction tv lanes e ∧
     SafeAggressiveLaneChanger.getAction tv lanes e ≤ e.curLane + 1) ∧
    (e.speed < tv →
      e.reverseHeadways.getD (SafeAggressiveLaneChanger.desiredLane lanes e) 0 < 8 →
      SafeAggressiveLaneChanger.getAction tv lanes e = e.curLane) ∧
    (e.speed < tv →
      ¬ e.reverseHeadways.getD (SafeAggressiveLaneChanger.desiredLane lanes e) 0 < 8 →
      SafeAggressiveLaneChanger.getAction tv lanes e =
        SafeAggressiveLaneChanger.desiredLane lanes e) := by
  have hbounds := safe_desiredLane_bounds lanes e hcur hlen
  refine ⟨?_, ?_, ?_⟩
  · simp only [SafeAggressiveLaneChanger.getAction]
    by_cases h1 : e.speed < tv
    · rw [if_pos h1]
      by_cases h2 :
          e.reverseHeadways.getD (SafeAggressiveLaneChanger.desiredLane lanes e) 0 < 8
      · rw [if_pos h2]
        omega
      · rw [if_neg h2]
        exact hbounds
    · rw [if_neg h1]
      omega
  · intro h1 h2
    simp only [SafeAggressiveLaneChanger.getAction]
    rw [if_pos h1, if_pos h2]
  · intro h1 h2
    simp only [SafeAggressiveLaneChanger.getAction]
    rw [if_pos h1, if_neg h2]

/-- A concrete snapshot for the safe-aggressive controller: slow vehicle
in lane 0 of 3, best adjacent forward gap in lane 1, whose rear gap 7 is
below the safety minimum of 8. -/
def envC9 : AggrEnv where
  speed := 4
  curLane := 0
  headways := [10, 50, 20]
  reverseHeadways := [9, 7, 9]

/-- Witness for `safe_aggressive_adjacent_spec` at `envC9` with 3 lanes
and threshold velocity 6. -/
theorem safe_aggressive_adjacent_spec_witness :
    envC9.curLane < 3 ∧ envC9.headways.length = 3 ∧
    ((SafeAggressiveLaneChanger.getAction 6 3 envC9 < 3 ∧
      envC9.curLane - 1 ≤ SafeAggressiveLaneChanger.getAction 6 3 envC9 ∧
      SafeAggressiveLaneChanger.getAction 6 3 envC9 ≤ envC9.curLane + 1) ∧
     (envC9.speed < 6 →
       envC9.reverseHeadways.getD (SafeAggressiveLaneChanger.desiredLane 3 envC9) 0 < 8 →
       SafeAggressiveLaneChanger.getAction 6 3 envC9 = envC9.curLane) ∧
     (envC9.speed < 6 →
       ¬ envC9.reverseHeadways.getD (SafeAggressiveLaneChanger.desiredLane 3 envC9) 0 < 8 →
       SafeAggressiveLaneChanger.getAction 6 3 envC9 =
         SafeAggressiveLaneChanger.desiredLane 3 envC9)) := by
  refine ⟨?_, ?_, safe_aggressive_adjacent_spec 6 3 envC9 ?_ ?_⟩ <;> simp [envC9]

/-! ### C7: zero-speed lanes and the stochastic controller -/

/-- A two-lane snapshot where the gap checks pass (leader 50 ahead,
follower 150 behind on a ring of length 200), the vehicle's lane 0 has
regional mean speed 0 and lane 1 has regional mean speed 12. -/
def envC7 : StochEnv where
  lanes := 2
  courseLen := 200
  curLane := 0
  maxSpeed := 30
  leader := some "A"
  follower := some "B"
  leadingCar := fun _ => none
  trailingCar := fun _ => none
  thisPos := 0
  posOf := fun s => if s = "A" then 50 else if s = "B" then 150 else 0
  regionSpeeds := fun lane => if lane = 0 then [0] else [12]

/-- C7 counterexample: at `envC7` every lane but lane 1 has estimated
speed 0 and lane 1's estimated speed is 12, yet with a failing random
draw (`draw = 1 ≥ prob = 1/2`) the controller returns lane 0, a
zero-speed lane, although not every lane's estimated speed is zero.  The
claim's "never returns a zero-speed lane" is therefore false as stated:
the controller may keep its zero-speed current lane. -/
theorem stochastic_returns_zero_speed_lane_cex :
    StochasticLaneChanger.getAction {} envC7 1 = 0 ∧
    envC7.curLane = 0 ∧
    StochasticLaneChanger.laneSpeed {} envC7 0 = 0 ∧
    StochasticLaneChanger.laneSpeed {} envC7 1 = 12 := by
  refine ⟨?_, rfl, ?_, ?_⟩ <;>
    · simp [StochasticLaneChanger.getAction, StochasticLaneChanger.laneSpeed, envC7,
        pyTruthy, List.range_succ]
      norm_num [pymod, npMean, pymax, List.indexOf_cons]

/-- C7 as amended: under the claim's hypothesis (one lane has positive
estimated speed, every other lane's estimated speed is zero), whenever the
stochastic controller returns a lane other than the current one, that lane
has positive estimated speed.  (A zero-speed lane can still be returned,
but only as the vehicle's unchanged current lane, when the
threshold/probability gate fails.) -/
theorem stochastic_switch_target_positive_speed (p : StochParams) (e : StochEnv) (draw : ℚ)
    (hex : ∃ l0, l0 < e.lanes ∧ 0 < StochasticLaneChanger.laneSpeed p e l0 ∧
      ∀ l, l < e.lanes → l ≠ l0 → StochasticLaneChanger.laneSpeed p e l = 0)
    (hne : StochasticLaneChanger.getAction p e draw ≠ e.curLane) :
    0 < StochasticLaneChanger.laneSpeed p e (StochasticLaneChanger.getAction p e draw) := by
  obtain ⟨l0, hl0, hpos, -⟩ := hex
  have hvlen : ((List.range e.lanes).map (StochasticLaneChanger.laneSpeed p e)).length =
      e.lanes := by simp
  have hvne : (List.range e.lanes).map (StochasticLaneChanger.laneSpeed p e) ≠ [] :=
    List.ne_nil_of_length_pos (by omega)
  by_cases hcond :
      ((List.range e.lanes).map (StochasticLaneChanger.laneSpeed p e)).indexOf
          (pymax ((List.range e.lanes).map (StochasticLaneChanger.laneSpeed p e))) ≠
          e.curLane ∧
        pymax ((List.range e.lanes).map (StochasticLaneChanger.laneSpeed p e)) -
            ((List.range e.lanes).map (StochasticLaneChanger.laneSpeed p e)).getD e.curLane 0 >
          p.speedThreshold ∧
        draw < p.prob
  · have hres : StochasticLaneChanger.getAction p e draw =
        ((List.range e.lanes).map (StochasticLaneChanger.laneSpeed p e)).indexOf
          (pymax ((List.range e.lanes).map (StochasticLaneChanger.laneSpeed p e))) := by
      simp only [StochasticLaneChanger.getAction]
      rw [if_pos hcond]
    have harg : npArgmax ((List.range e.lanes).map (StochasticLaneChanger.laneSpeed p e)) <
        ((List.range e.lanes).map (StochasticLaneChanger.laneSpeed p e)).length :=
      npArgmax_lt_length _ hvne
    have hmaxval : ((List.range e.lanes).map (StochasticLaneChanger.laneSpeed p e)).getD
        (npArgmax ((List.range e.lanes).map (StochasticLaneChanger.laneSpeed p e))) 0 =
        pymax ((List.range e.lanes).map (StochasticLaneChanger.laneSpeed p e)) :=
      getD_npArgmax _ hvne
    have hspeedArg : ((List.range e.lanes).map (StochasticLaneChanger.laneSpeed p e)).getD
        (npArgmax ((List.range e.lanes).map (StochasticLaneChanger.laneSpeed p e))) 0 =
        StochasticLaneChanger.laneSpeed p e
          (npArgmax ((List.range e.lanes).map (StochasticLaneChanger.laneSpeed p e))) := by
      rw [List.getD_eq_getElem _ 0 harg]
      simp
    have hl0v : ((List.range e.lanes).map (StochasticLaneChanger.laneSpeed p e)).getD l0 0 =
        StochasticLaneChanger.laneSpeed p e l0 := by
      rw [List.getD_eq_getElem _ 0 (by omega)]
      simp
    have hle : StochasticLaneChanger.laneSpeed p e l0 ≤
        pymax ((List.range e.lanes).map (StochasticLaneChanger.laneSpeed p e)) := by
      rw [← hl0v]
      exact getD_le_pymax _ l0 (by omega)
    rw [hres]
    have : (0 : ℚ) < pymax ((List.range e.lanes).map (StochasticLaneChanger.laneSpeed p e)) :=
      lt_of_lt_of_le hpos hle
    calc (0 : ℚ) < pymax ((List.range e.lanes).map (StochasticLaneChanger.laneSpeed p e)) := this
      _ = StochasticLaneChanger.laneSpeed p e
          (npArgmax ((List.range e.lanes).map (StochasticLaneChanger.laneSpeed p e))) := by
          rw [← hmaxval, hspeedArg]
  · exfalso
    apply hne
    simp only [StochasticLaneChanger.getAction]
    rw [if_neg hcond]

/-- Witness for `stochastic_switch_target_positive_speed` at `envC7` with
a succeeding draw (`draw = 0 < prob = 1/2`): the controller switches to
lane 1, whose estimated speed 12 is positive. -/
theorem stochastic_switch_target_positive_speed_witness :
    StochasticLaneChanger.getAction {} envC7 0 ≠ envC7.curLane ∧
    0 < StochasticLaneChanger.laneSpeed {} envC7 (StochasticLaneChanger.getAction {} envC7 0) := by
  have hne : StochasticLaneChanger.getAction {} envC7 0 ≠ envC7.curLane := by
    have h1 : StochasticLaneChanger.getAction {} envC7 0 = 1 := by
      simp [StochasticLaneChanger.getAction, StochasticLaneChanger.laneSpeed, envC7,
        pyTruthy, List.range_succ]
      norm_num [pymod, npMean, pymax, List.indexOf_cons]
    rw [h1]
    simp [envC7]
  refine ⟨hne, stochastic_switch_target_positive_speed {} envC7 0 ⟨1, ?_, ?_, ?_⟩ hne⟩
  · simp [envC7]
  · have h2 : StochasticLaneChanger.laneSpeed {} envC7 1 = 12 := by
      simp [StochasticLaneChanger.laneSpeed, envC7, pyTruthy]
      norm_num [pymod, npMean]
    rw [h2]
    norm_num
  · intro l hl hlne
    have hl2 : l < 2 := by simpa [envC7] using hl
    interval_cases l
    · simp [StochasticLaneChanger.laneSpeed, envC7, pyTruthy]
      norm_num [pymod, npMean]
    · exact absurd rfl hlne

/-! ### C4: red/green timing for registered vehicles past 120 -/

/-- An observation with no vehicles (the per-vehicle branch of
`tollProcessCar` under scrutiny reads nothing from it). -/
def obsEmpty : Obs where
  vehs := []
  drawRegular := fun _ => 0
  drawFast := fun _ => 0

/-- C4 counterexample: with the lane's remaining wait time exactly 0
(which is `≤ 0`), a registered vehicle at position 130 (past the 120
threshold) turns the lane red and decrements the wait time to −1 — the
code tests `toll_wait_time[lane] < 0` strictly, so the claim's "green when
≤ 0" fails at 0. -/
theorem toll_wait_zero_marks_red_cex :
    (0 : ℚ) ≤ 0 ∧
    tollProcessCar obsEmpty 0
        ([("V", { mode := 1621, color := (255, 255, 0, 0) })],
          List.replicate 20 'G', [(0 : ℚ)], [])
        ("V", 130) =
      ([("V", { mode := 1621, color := (255, 255, 0, 0) })],
        'r' :: List.replicate 19 'G', [(-1 : ℚ)], []) := by
  refine ⟨le_refl 0, ?_⟩
  simp [tollProcessCar, alookup, TOLL_BOOTH_AREA, List.replicate_succ]
  norm_num

/-- C4 as amended: for a registered vehicle past position 120 in a toll
lane, the lane is marked green exactly when the lane's remaining wait
time is strictly negative; when the wait time is ≥ 0 (including exactly
0) the lane is marked red and the wait time is decremented by one. -/
theorem toll_red_green_strict_neg (o : Obs) (lane : Nat)
    (m : List (String × Saved)) (tl : List Char) (wait : List ℚ) (acts : List Command)
    (veh : String) (pos : ℚ) (sv : Saved)
    (hreg : alookup m veh = some sv) (hpos : pos > 120) :
    (wait.getD lane 0 < 0 →
      tollProcessCar o lane (m, tl, wait, acts) (veh, pos) =
        (m, tl.set lane 'G', wait, acts)) ∧
    (0 ≤ wait.getD lane 0 →
      tollProcessCar o lane (m, tl, wait, acts) (veh, pos) =
        (m, tl.set lane 'r', wait.set lane (wait.getD lane 0 - 1), acts)) := by
  have h100 : pos > TOLL_BOOTH_AREA := by
    unfold TOLL_BOOTH_AREA
    linarith
  constructor
  · intro hneg
    simp only [tollProcessCar]
    rw [if_pos h100, hreg]
    simp only [reduceCtorEq, if_false]
    rw [if_pos hpos, if_pos hneg]
  · intro hnonneg
    simp only [tollProcessCar]
    rw [if_pos h100, hreg]
    simp only [reduceCtorEq, if_false]
    rw [if_pos hpos, if_neg (not_lt.mpr hnonneg)]

/-- Witness for `toll_red_green_strict_neg`: a registered vehicle at
position 130, once with wait time −1 (green, no decrement) and the
conclusions instantiated at wait time list `[-1]`. -/
theorem toll_red_green_strict_neg_witness :
    alookup [("V", ({ mode := 1621, color := (255, 255, 0, 0) } : Saved))] "V" =
        some { mode := 1621, color := (255, 255, 0, 0) } ∧
    (130 : ℚ) > 120 ∧
    (([(-1 : ℚ)].getD 0 0 < 0 →
      tollProcessCar obsEmpty 0
          ([("V", { mode := 1621, color := (255, 255, 0, 0) })],
            List.replicate 20 'G', [(-1 : ℚ)], []) ("V", 130) =
        ([("V", { mode := 1621, color := (255, 255, 0, 0) })],
          (List.replicate 20 'G').set 0 'G', [(-1 : ℚ)], [])) ∧
     (0 ≤ [(-1 : ℚ)].getD 0 0 →
      tollProcessCar obsEmpty 0
          ([("V", { mode := 1621, color := (255, 255, 0, 0) })],
            List.replicate 20 'G', [(-1 : ℚ)], []) ("V", 130) =
        ([("V", { mode := 1621, color := (255, 255, 0, 0) })],
          (List.replicate 20 'G').set 0 'r', [(-1 : ℚ)].set 0 ([(-1 : ℚ)].getD 0 0 - 1), []))) := by
  refine ⟨?_, by norm_num,
    toll_red_green_strict_neg obsEmpty 0 _ (List.replicate 20 'G') [(-1 : ℚ)] [] "V" 130
      { mode := 1621, color := (255, 255, 0, 0) } ?_ (by norm_num)⟩ <;>
    · try simp [alookup]

/-! ### C5: what registration does, and where the wait time is resampled -/

/-- C5 as amended: (a) a vehicle past `TOLL_BOOTH_AREA` on the pre-toll
edge that is not yet registered is appended to the wait registry with its
current lane-change mode and color, its lane changing is disabled (mode
512) and it is recolored — and the per-lane wait times are left
untouched by registration; (b) the wait time of a lane is freshly drawn
(clamped at 0, from the fast-track or regular distribution according to
the lane) when a registered vehicle is released on the downstream edge,
in the release loop. -/
theorem toll_registration_saves_and_release_resamples :
    (∀ (o : Obs) (lane : Nat) (m : List (String × Saved)) (tl : List Char)
        (wait : List ℚ) (acts : List Command) (veh : String) (pos : ℚ),
      alookup m veh = none → pos > TOLL_BOOTH_AREA →
      tollProcessCar o lane (m, tl, wait, acts) (veh, pos) =
        (m ++ [(veh, { mode := (obsOf o veh).lcMode, color := (obsOf o veh).color })], tl, wait,
          acts ++ [Command.setLaneChangeMode veh 512, Command.setColor veh (255, 0, 255, 0)])) ∧
    (∀ (o : Obs) (veh : String) (sv : Saved) (wait : List ℚ) (acts : List Command),
      tollReleaseCar o veh sv (wait, acts) =
        (wait.set (obsOf o veh).lane
            (max 0 (if (obsOf o veh).lane ∈ FAST_TRACK_ON then o.drawFast veh
                    else o.drawRegular veh)),
          acts ++ [Command.setColor veh sv.color, Command.setLaneChangeMode veh sv.mode])) := by
  constructor
  · intro o lane m tl wait acts veh pos hnew hpos
    simp only [tollProcessCar]
    rw [if_pos hpos, if_pos hnew]
  · intro o veh sv wait acts
    simp only [tollReleaseCar]
    split_ifs with h <;> rfl

/-- The observation used for the C5 scenario: vehicle `V` freshly arrived
on the pre-toll edge, lane 0, position 105, with lane-change mode 1621
and color (255, 255, 0, 0); the step's normal draws would be 99
(regular) and 77 (fast-track). -/
def obsC5 : Obs where
  vehs := [("V",
    { edge := EDGE_BEFORE_TOLL, lane := 0, pos := 105, lcMode := 1621,
      color := (255, 255, 0, 0) })]
  drawRegular := fun _ => 99
  drawFast := fun _ => 77

/-- The coordinator state before the C5 scenario step: empty registries,
lane-0 wait time 5, and a traffic-light string equal to what the step
rebuilds (all green), so no push occurs. -/
def sC5 : BridgeState where
  carsWaitingForToll := []
  carsBeforeRamp := []
  tollWaitTime := [5]
  tlState := ⟨List.replicate NUM_TOLL_LANES 'G'⟩

/-- C5 counterexample: in the very step in which `V` is registered
(saving mode 1621 and its color, with draws 99/77 available), the lane's
wait time is left at 5 — registration does not assign a freshly drawn
wait time; resampling only happens at release. -/
theorem toll_registration_keeps_wait_cex :
    (tollStep sC5 obsC5).1.tollWaitTime = [5] ∧
    alookup (tollStep sC5 obsC5).1.carsWaitingForToll "V" =
      some { mode := 1621, color := (255, 255, 0, 0) } ∧
    obsC5.drawRegular "V" = 99 ∧ obsC5.drawFast "V" = 77 ∧
    (5 : ℚ) ≠ 99 ∧ (5 : ℚ) ≠ 77 ∧ (5 : ℚ) ≠ max 0 99 ∧ (5 : ℚ) ≠ max 0 77 := by
  have hrange : List.range NUM_TOLL_LANES =
      [0, 1, 2, 3, 4, 5, 6, 7, 8, 9, 10, 11, 12, 13, 14, 15, 16, 17, 18, 19] := by rfl
  refine ⟨?_, ?_, rfl, rfl, by norm_num, by norm_num, by norm_num, by norm_num⟩ <;>
    · simp [tollStep, tollNewTls, tollPhase1, tollPhase2, hrange, carsInLane, obsC5, sC5,
        EDGE_BEFORE_TOLL, tollProcessCar, obsOf, alookup, TOLL_BOOTH_AREA]
      try norm_num

/-- Witness for `toll_registration_saves_and_release_resamples`:
registering `V` (unregistered, position 105 > 100) appends its saved
state, disables its lane changes and leaves the wait list `[5]`
unchanged; releasing `V` from lane 0 (not fast-track) resamples the
lane-0 wait time to `max 0 99 = 99`. -/
theorem toll_registration_saves_and_release_resamples_witness :
    alookup ([] : List (String × Saved)) "V" = none ∧
    (105 : ℚ) > TOLL_BOOTH_AREA ∧
    tollProcessCar obsC5 0 ([], List.replicate 20 'G', [(5 : ℚ)], []) ("V", 105) =
      ([("V", { mode := 1621, color := (255, 255, 0, 0) })], List.replicate 20 'G', [(5 : ℚ)],
        [Command.setLaneChangeMode "V" 512, Command.setColor "V" (255, 0, 255, 0)]) ∧
    tollReleaseCar obsC5 "V" { mode := 9, color := (1, 2, 3, 4) } ([(5 : ℚ)], []) =
      ([(99 : ℚ)], [Command.setColor "V" (1, 2, 3, 4), Command.setLaneChangeMode "V" 9]) := by
  have h1 : alookup ([] : List (String × Saved)) "V" = none := rfl
  have h2 : (105 : ℚ) > TOLL_BOOTH_AREA := by norm_num [TOLL_BOOTH_AREA]
  refine ⟨h1, h2, ?_, ?_⟩
  · rw [toll_registration_saves_and_release_resamples.1 obsC5 0 [] (List.replicate 20 'G')
      [(5 : ℚ)] [] "V" 105 h1 h2]
    simp [obsOf, alookup, obsC5]
  · rw [toll_registration_saves_and_release_resamples.2 obsC5 "V"
      { mode := 9, color := (1, 2, 3, 4) } [(5 : ℚ)] []]
    simp [obsOf, alookup, obsC5, FAST_TRACK_ON]
    try norm_num

/-! ### C6: the ramp-meter registration bug -/

/-- Step 1 of the C6 scenario: `V` in the pre-ramp zone (lane 0, position
90 > 80) with its original lane-change mode 1621 and color
(255, 255, 0, 0). -/
def obsC6a : Obs where
  vehs := [("V",
    { edge := EDGE_BEFORE_RAMP_METER, lane := 0, pos := 90, lcMode := 1621,
      color := (255, 255, 0, 0) })]
  drawRegular := fun _ => 0
  drawFast := fun _ => 0

/-- Step 2 of the C6 scenario: `V` still in the pre-ramp zone, now
reporting the override the coordinator itself applied in step 1
(mode 512, color (0, 255, 255, 0)). -/
def obsC6b : Obs where
  vehs := [("V",
    { edge := EDGE_BEFORE_RAMP_METER, lane := 0, pos := 90, lcMode := 512,
      color := (0, 255, 255, 0) })]
  drawRegular := fun _ => 0
  drawFast := fun _ => 0

/-- Empty initial coordinator state for the C6 scenario. -/
def sC6 : BridgeState where
  carsWaitingForToll := []
  carsBeforeRamp := []
  tollWaitTime := []
  tlState := ""

/-- C6 (code bug, evaluated at the failing input): the registration guard
of `ramp_meter_lane_change_control` tests membership in
`cars_waiting_for_toll` (the TOLL registry) instead of
`cars_before_ramp`, so a vehicle already registered in the ramp registry
is re-registered on every step it remains in the pre-ramp zone.  On the
second step the saved entry is overwritten with the override values
(mode 512, cyan) applied in the first step, losing the original mode
1621 that the claim says is always what gets restored. -/
theorem ramp_reregisters_and_clobbers_saved_state :
    alookup (rampStep sC6 obsC6a).1.carsBeforeRamp "V" =
      some { mode := 1621, color := (255, 255, 0, 0) } ∧
    alookup (rampStep (rampStep sC6 obsC6a).1 obsC6b).1.carsBeforeRamp "V" =
      some { mode := 512, color := (0, 255, 255, 0) } ∧
    (512 : Int) ≠ 1621 := by
  have hrange : List.range NUM_RAMP_METERS = [0, 1, 2, 3, 4, 5, 6, 7, 8, 9, 10, 11, 12, 13] :=
    by rfl
  refine ⟨?_, ?_, by norm_num⟩ <;>
    · simp [rampStep, hrange, carsInLane, rampProcessCar, upsert, obsOf, alookup,
        obsC6a, obsC6b, sC6, EDGE_BEFORE_RAMP_METER, EDGE_AFTER_RAMP_METER, RAMP_METER_AREA]
      try norm_num

/-! ### Fold and lookup infrastructure for the coordinator proofs -/

theorem foldl_invariant_mem {α σ : Type} (f : σ → α → σ) (P : σ → Prop) :
    ∀ (l : List α), (∀ st a, a ∈ l → P st → P (f st a)) →
      ∀ st, P st → P (l.foldl f st) := by
  intro l
  induction l with
  | nil => intro _ st hst; exact hst
  | cons a l ih =>
    intro h st hst
    exact ih (fun st2 b hb h2 => h st2 b (List.mem_cons_of_mem a hb) h2) (f st a)
      (h st a (List.mem_cons_self a l) hst)

theorem alookup_eq_none {α : Type} :
    ∀ (l : List (String × α)) (k : String), (∀ p ∈ l, p.1 ≠ k) → alookup l k = none := by
  intro l
  induction l with
  | nil => intro k _; rfl
  | cons p rest ih =>
    intro k h
    obtain ⟨k', a⟩ := p
    simp only [alookup]
    rw [if_neg (h (k', a) (List.mem_cons_self _ _))]
    exact ih k (fun q hq => h q (List.mem_cons_of_mem _ hq))

theorem alookup_append_some {α : Type} :
    ∀ (l1 l2 : List (String × α)) (k : String) (a : α),
      alookup l1 k = some a → alookup (l1 ++ l2) k = some a := by
  intro l1
  induction l1 with
  | nil => intro l2 k a h; cases h
  | cons p rest ih =>
    intro l2 k a h
    obtain ⟨k', a'⟩ := p
    simp only [alookup] at h ⊢
    by_cases hk : k' = k
    · rw [if_pos hk] at h ⊢
      exact h
    · rw [if_neg hk] at h ⊢
      exact ih l2 k a h

theorem alookup_append_none {α : Type} :
    ∀ (l1 l2 : List (String × α)) (k : String),
      alookup l1 k = none → alookup (l1 ++ l2) k = alookup l2 k := by
  intro l1
  induction l1 with
  | nil => intro l2 k _; rfl
  | cons p rest ih =>
    intro l2 k h
    obtain ⟨k', a'⟩ := p
    simp only [alookup] at h ⊢
    by_cases hk : k' = k
    · rw [if_pos hk] at h
      cases h
    · rw [if_neg hk] at h ⊢
      exact ih l2 k h

theorem alookup_decomp {α : Type} :
    ∀ (m : List (String × α)) (k : String) (a : α),
      alookup m k = some a → (m.map Prod.fst).Nodup →
      ∃ m1 m2, m = m1 ++ (k, a) :: m2 ∧ (∀ p ∈ m1, p.1 ≠ k) ∧ (∀ p ∈ m2, p.1 ≠ k) := by
  intro m
  induction m with
  | nil => intro k a h _; cases h
  | cons p rest ih =>
    intro k a h hnd
    obtain ⟨k', a'⟩ := p
    by_cases hk : k' = k
    · subst hk
      simp [alookup] at h
      subst h
      refine ⟨[], rest, rfl, ?_, ?_⟩
      · intro q hq
        cases hq
      · intro q hq hqk
        have hnotin : k' ∉ rest.map Prod.fst := (List.nodup_cons.mp (by simpa using hnd)).1
        exact hnotin (hqk ▸ List.mem_map_of_mem Prod.fst hq)
    · simp only [alookup, if_neg hk] at h
      have hnd' : (rest.map Prod.fst).Nodup := (List.nodup_cons.mp (by simpa using hnd)).2
      obtain ⟨m1, m2, heq, h1, h2⟩ := ih k a h hnd'
      refine ⟨(k', a') :: m1, m2, by rw [heq]; rfl, ?_, h2⟩
      intro q hq
      rcases List.mem_cons.mp hq with hq | hq
      · rw [hq]
        exact hk
      · exact h1 q hq

theorem alookup_of_mem_nodup {α : Type} :
    ∀ (l : List (String × α)) (k : String) (a : α),
      (k, a) ∈ l → (l.map Prod.fst).Nodup → alookup l k = some a := by
  intro l
  induction l with
  | nil => intro k a h _; cases h
  | cons p rest ih =>
    intro k a h hnd
    obtain ⟨k', a'⟩ := p
    rcases List.mem_cons.mp h with h | h
    · obtain ⟨h1, h2⟩ := Prod.mk.injEq .. ▸ h
      simp only [alookup]
      rw [if_pos h1.symm]
      exact congrArg some h2.symm
    · simp only [alookup]
      by_cases hk : k' = k
      · exfalso
        have hnotin : k' ∉ rest.map Prod.fst := (List.nodup_cons.mp (by simpa using hnd)).1
        exact hnotin (hk ▸ List.mem_map_of_mem Prod.fst h)
      · rw [if_neg hk]
        exact ih k a h (List.nodup_cons.mp (by simpa using hnd)).2

theorem mem_carsInLane (o : Obs) (edge : String) (lane : Nat) (car : String × ℚ)
    (h : car ∈ carsInLane o edge lane) :
    ∃ vo, (car.1, vo) ∈ o.vehs ∧ vo.edge = edge ∧ vo.lane = lane ∧ vo.pos = car.2 := by
  simp only [carsInLane, List.mem_filterMap] at h
  obtain ⟨p, hp, heq⟩ := h
  by_cases hc : p.2.edge = edge ∧ p.2.lane = lane
  · rw [if_pos hc] at heq
    obtain rfl : (p.1, p.2.pos) = car := Option.some.inj heq
    exact ⟨p.2, by simpa using hp, hc.1, hc.2, rfl⟩
  · rw [if_neg hc] at heq
    cases heq

theorem obsOf_of_mem (o : Obs) (v : String) (vo : VehObs)
    (h : (v, vo) ∈ o.vehs) (hnd : (o.vehs.map Prod.fst).Nodup) : obsOf o v = vo := by
  unfold obsOf
  rw [alookup_of_mem_nodup o.vehs v vo h hnd]
  rfl

/-- Every vehicle listed in `carsInLane o edge lane` is observed on that
edge (provided vehicle ids are unique in the observation). -/
theorem carsInLane_key_edge (o : Obs) (hndo : (o.vehs.map Prod.fst).Nodup)
    (edge : String) (lane : Nat) (car : String × ℚ)
    (h : car ∈ carsInLane o edge lane) : (obsOf o car.1).edge = edge := by
  obtain ⟨vo, hmem, he, -, -⟩ := mem_carsInLane o edge lane car h
  rw [obsOf_of_mem o car.1 vo hmem hndo, he]

/-- The pair of commands restoring a released vehicle's saved color and
lane-change mode. -/
def restoreCmds (p : String × Saved) : List Command :=
  [Command.setColor p.1 p.2.color, Command.setLaneChangeMode p.1 p.2.mode]

theorem tollReleaseCar_acts (o : Obs) (v : String) (sv : Saved) (acc : List ℚ × List Command) :
    (tollReleaseCar o v sv acc).2 = acc.2 ++ restoreCmds (v, sv) := by
  simp only [tollReleaseCar, restoreCmds]

theorem tollPhase1_foldl_acts (o : Obs) :
    ∀ (l : List (String × Saved)) (acc : List ℚ × List Command),
      (l.foldl (fun acc p => tollReleaseCar o p.1 p.2 acc) acc).2 =
        acc.2 ++ l.flatMap restoreCmds := by
  intro l
  induction l with
  | nil => intro acc; simp
  | cons p rest ih =>
    intro acc
    rw [List.foldl_cons, ih (tollReleaseCar o p.1 p.2 acc), tollReleaseCar_acts]
    simp [List.append_assoc]

theorem tollPhase1_acts (s : BridgeState) (o : Obs) :
    (tollPhase1 s o).2.2 =
      (s.carsWaitingForToll.filter fun p =>
        (obsOf o p.1).edge = EDGE_AFTER_TOLL).flatMap restoreCmds := by
  simp only [tollPhase1]
  rw [tollPhase1_foldl_acts]
  simp

theorem tollPhase1_map (s : BridgeState) (o : Obs) :
    (tollPhase1 s o).1 =
      s.carsWaitingForToll.filter fun p =>
        ¬ (obsOf o p.1).edge = EDGE_AFTER_TOLL := rfl

theorem restoreCmds_vehOf (p : String × Saved) :
    ∀ c ∈ restoreCmds p, c.vehOf = some p.1 := by
  intro c hc
  rcases List.mem_cons.mp hc with h | h
  · rw [h]
    rfl
  · rw [List.mem_singleton.mp h]
    rfl

theorem tollPhase1_acts_vehOf (s : BridgeState) (o : Obs) :
    ∀ c ∈ (tollPhase1 s o).2.2,
      ∃ p ∈ s.carsWaitingForToll, c.vehOf = some p.1 := by
  intro c hc
  rw [tollPhase1_acts] at hc
  obtain ⟨p, hp, hcp⟩ := List.mem_flatMap.mp hc
  exact ⟨p, (List.mem_filter.mp hp).1, restoreCmds_vehOf p c hcp⟩

theorem tollProcessCar_tl_length (o : Obs) (lane : Nat)
    (st : List (String × Saved) × List Char × List ℚ × List Command) (car : String × ℚ) :
    (tollProcessCar o lane st car).2.1.length = st.2.1.length := by
  obtain ⟨m, tl, wait, acts⟩ := st
  obtain ⟨veh, pos⟩ := car
  simp only [tollProcessCar]
  split_ifs <;> simp [List.length_set]

theorem tollProcessCar_acts_sub (o : Obs) (lane : Nat)
    (st : List (String × Saved) × List Char × List ℚ × List Command) (car : String × ℚ) :
    ∀ c ∈ (tollProcessCar o lane st car).2.2.2,
      c ∈ st.2.2.2 ∨ c.vehOf = some car.1 := by
  obtain ⟨m, tl, wait, acts⟩ := st
  obtain ⟨veh, pos⟩ := car
  simp only [tollProcessCar]
  split_ifs <;> intro c hc
  · rcases List.mem_append.mp hc with h | h
    · exact Or.inl h
    · right
      rcases List.mem_cons.mp h with h | h
      · rw [h]
        rfl
      · rw [List.mem_singleton.mp h]
        rfl
  · exact Or.inl hc
  · exact Or.inl hc
  · exact Or.inl hc
  · exact Or.inl hc

theorem tollProcessCar_map_lookup_ne (o : Obs) (lane : Nat)
    (st : List (String × Saved) × List Char × List ℚ × List Command) (car : String × ℚ)
    (k : String) (hk : car.1 ≠ k) :
    alookup (tollProcessCar o lane st car).1 k = alookup st.1 k := by
  obtain ⟨m, tl, wait, acts⟩ := st
  obtain ⟨veh, pos⟩ := car
  simp only [tollProcessCar]
  split_ifs <;> try rfl
  show alookup (m ++ [(veh, _)]) k = alookup m k
  cases h : alookup m k with
  | some a => exact alookup_append_some m _ k a h
  | none =>
    rw [alookup_append_none m _ k h]
    simp only [alookup]
    rw [if_neg hk]

theorem tollProcessCar_registered (o : Obs) (lane : Nat)
    (st : List (String × Saved) × List Char × List ℚ × List Command) (car : String × ℚ)
    (sv : Saved) (hreg : alookup st.1 car.1 = some sv) :
    (tollProcessCar o lane st car).1 = st.1 ∧
    (tollProcessCar o lane st car).2.2.2 = st.2.2.2 := by
  obtain ⟨m, tl, wait, acts⟩ := st
  obtain ⟨veh, pos⟩ := car
  simp only [tollProcessCar]
  split_ifs with h1 h2 h3 h4
  · exfalso
    rw [hreg] at h2
    cases h2
  · exact ⟨rfl, rfl⟩
  · exact ⟨rfl, rfl⟩
  · exact ⟨rfl, rfl⟩
  · exact ⟨rfl, rfl⟩

theorem tollPhase2_tl_length (o : Obs) (m : List (String × Saved)) (wait : List ℚ) :
    (tollPhase2 o m wait).2.1.length = NUM_TOLL_LANES := by
  show ((List.range NUM_TOLL_LANES).foldl
      (fun st lane => (carsInLane o EDGE_BEFORE_TOLL lane).foldl (tollProcessCar o lane) st)
      (m, List.replicate NUM_TOLL_LANES 'G', wait, ([] : List Command))).2.1.length =
    NUM_TOLL_LANES
  refine foldl_invariant_mem
    (fun st lane => (carsInLane o EDGE_BEFORE_TOLL lane).foldl (tollProcessCar o lane) st)
    (fun st => st.2.1.length = NUM_TOLL_LANES)
    (List.range NUM_TOLL_LANES) ?_ _ (by simp)
  intro st lane _ hst
  refine foldl_invariant_mem (tollProcessCar o lane)
    (fun st => st.2.1.length = NUM_TOLL_LANES) (carsInLane o EDGE_BEFORE_TOLL lane) ?_ st hst
  intro st2 car _ h2
  rw [tollProcessCar_tl_length]
  exact h2

theorem tollPhase2_acts_vehOf (o : Obs) (m : List (String × Saved)) (wait : List ℚ) :
    ∀ c ∈ (tollPhase2 o m wait).2.2.2,
      ∃ lane car, car ∈ carsInLane o EDGE_BEFORE_TOLL lane ∧ c.vehOf = some car.1 := by
  show ∀ c ∈ ((List.range NUM_TOLL_LANES).foldl
      (fun st lane => (carsInLane o EDGE_BEFORE_TOLL lane).foldl (tollProcessCar o lane) st)
      (m, List.replicate NUM_TOLL_LANES 'G', wait, ([] : List Command))).2.2.2,
    ∃ lane car, car ∈ carsInLane o EDGE_BEFORE_TOLL lane ∧ c.vehOf = some car.1
  refine foldl_invariant_mem
    (fun st lane => (carsInLane o EDGE_BEFORE_TOLL lane).foldl (tollProcessCar o lane) st)
    (fun st => ∀ c ∈ st.2.2.2,
      ∃ lane car, car ∈ carsInLane o EDGE_BEFORE_TOLL lane ∧ c.vehOf = some car.1)
    (List.range NUM_TOLL_LANES) ?_ _ (by intro c hc; cases hc)
  intro st lane _ hst
  refine foldl_invariant_mem (tollProcessCar o lane)
    (fun st => ∀ c ∈ st.2.2.2,
      ∃ lane car, car ∈ carsInLane o EDGE_BEFORE_TOLL lane ∧ c.vehOf = some car.1)
    (carsInLane o EDGE_BEFORE_TOLL lane) ?_ st hst
  intro st2 car hcar h2 c hc
  rcases tollProcessCar_acts_sub o lane st2 car c hc with h | h
  · exact h2 c h
  · exact ⟨lane, car, hcar, h⟩

theorem tollPhase2_map_none (o : Obs) (m : List (String × Saved)) (wait : List ℚ)
    (veh : String)
    (hcars : ∀ lane car, car ∈ carsInLane o EDGE_BEFORE_TOLL lane → car.1 ≠ veh)
    (h0 : alookup m veh = none) :
    alookup (tollPhase2 o m wait).1 veh = none := by
  show alookup ((List.range NUM_TOLL_LANES).foldl
      (fun st lane => (carsInLane o EDGE_BEFORE_TOLL lane).foldl (tollProcessCar o lane) st)
      (m, List.replicate NUM_TOLL_LANES 'G', wait, ([] : List Command))).1 veh = none
  refine foldl_invariant_mem
    (fun st lane => (carsInLane o EDGE_BEFORE_TOLL lane).foldl (tollProcessCar o lane) st)
    (fun st => alookup st.1 veh = none)
    (List.range NUM_TOLL_LANES) ?_ _ h0
  intro st lane _ hst
  refine foldl_invariant_mem (tollProcessCar o lane)
    (fun st => alookup st.1 veh = none) (carsInLane o EDGE_BEFORE_TOLL lane) ?_ st hst
  intro st2 car hcar h2
  rw [tollProcessCar_map_lookup_ne o lane st2 car veh (hcars lane car hcar)]
  exact h2

theorem tollPhase2_keeps_registered (o : Obs) (m : List (String × Saved)) (wait : List ℚ)
    (veh : String) (sv : Saved) (h0 : alookup m veh = some sv) :
    alookup (tollPhase2 o m wait).1 veh = some sv ∧
    ∀ c ∈ (tollPhase2 o m wait).2.2.2, c.vehOf ≠ some veh := by
  show (fun st => alookup st.1 veh = some sv ∧ ∀ c ∈ st.2.2.2, c.vehOf ≠ some veh)
    ((List.range NUM_TOLL_LANES).foldl
      (fun st lane => (carsInLane o EDGE_BEFORE_TOLL lane).foldl (tollProcessCar o lane) st)
      (m, List.replicate NUM_TOLL_LANES 'G', wait, ([] : List Command)))
  refine foldl_invariant_mem
    (fun st lane => (carsInLane o EDGE_BEFORE_TOLL lane).foldl (tollProcessCar o lane) st)
    (fun st => alookup st.1 veh = some sv ∧ ∀ c ∈ st.2.2.2, c.vehOf ≠ some veh)
    (List.range NUM_TOLL_LANES) ?_ _ ⟨h0, by intro c hc; cases hc⟩
  intro st lane _ hst
  refine foldl_invariant_mem (tollProcessCar o lane)
    (fun st => alookup st.1 veh = some sv ∧ ∀ c ∈ st.2.2.2, c.vehOf ≠ some veh)
    (carsInLane o EDGE_BEFORE_TOLL lane) ?_ st hst
  intro st2 car _ h2
  by_cases hc : car.1 = veh
  · obtain ⟨hmap, hacts⟩ :=
      tollProcessCar_registered o lane st2 car sv (by rw [hc]; exact h2.1)
    rw [hmap, hacts]
    exact h2
  · constructor
    · rw [tollProcessCar_map_lookup_ne o lane st2 car veh hc]
      exact h2.1
    · intro c hcmem
      rcases tollProcessCar_acts_sub o lane st2 car c hcmem with h | h
      · exact h2.2 c h
      · rw [h]
        intro hsome
        exact hc (Option.some.inj hsome)

/-! ### C3: the traffic-light string -/

/-- C3: the traffic-light string rebuilt each step has length exactly
`NUM_TOLL_LANES`; it is stored as the new `tl_state`; and a
`setRedYellowGreenState` command is sent in a step if and only if the
rebuilt string differs from the previous step's string (and then exactly
with the rebuilt string, addressed to the toll-booth light). -/
theorem toll_tl_string_length_and_push_iff (s : BridgeState) (o : Obs) :
    (tollNewTls s o).length = NUM_TOLL_LANES ∧
    (tollStep s o).1.tlState = tollNewTls s o ∧
    (∀ tls str, Command.setTrafficLight tls str ∈ (tollStep s o).2 ↔
      (tls = TB_TL_ID ∧ str = tollNewTls s o ∧ tollNewTls s o ≠ s.tlState)) := by
  have h1 : ∀ c ∈ (tollPhase1 s o).2.2, c.vehOf.isSome := by
    intro c hc
    obtain ⟨p, -, hp⟩ := tollPhase1_acts_vehOf s o c hc
    rw [hp]
    rfl
  have h2 : ∀ c ∈ (tollPhase2 o (tollPhase1 s o).1 (tollPhase1 s o).2.1).2.2.2,
      c.vehOf.isSome := by
    intro c hc
    obtain ⟨lane, car, -, hp⟩ := tollPhase2_acts_vehOf o _ _ c hc
    rw [hp]
    rfl
  refine ⟨?_, ?_, ?_⟩
  · show (tollPhase2 o (tollPhase1 s o).1 (tollPhase1 s o).2.1).2.1.length = NUM_TOLL_LANES
    exact tollPhase2_tl_length o _ _
  · simp only [tollStep]
    by_cases h : tollNewTls s o ≠ s.tlState
    · rw [if_pos h]
    · rw [if_neg h]
      exact (not_not.mp h).symm
  · intro tls str
    simp only [tollStep]
    by_cases h : tollNewTls s o ≠ s.tlState
    · rw [if_pos h]
      constructor
      · intro hmem
        rcases List.mem_append.mp hmem with hmem | hmem
        · rcases List.mem_append.mp hmem with hmem | hmem
          · have := h1 _ hmem
            simp [Command.vehOf] at this
          · have := h2 _ hmem
            simp [Command.vehOf] at this
        · have heq := List.mem_singleton.mp hmem
          injection heq with ha hb
          exact ⟨ha, hb, h⟩
      · rintro ⟨rfl, rfl, -⟩
        exact List.mem_append.mpr (Or.inr (List.mem_singleton.mpr rfl))
    · rw [if_neg h]
      constructor
      · intro hmem
        rcases List.mem_append.mp hmem with hmem | hmem
        · have := h1 _ hmem
          simp [Command.vehOf] at this
        · have := h2 _ hmem
          simp [Command.vehOf] at this
      · rintro ⟨-, -, hne⟩
        exact absurd hne h

/-! ### C2: restore-exactly-once for the toll wait registry -/

theorem count_flatMap_restore_zero (l : List (String × Saved)) (veh : String)
    (h : ∀ p ∈ l, p.1 ≠ veh) (c : Command) (hc : c.vehOf = some veh) :
    (l.flatMap restoreCmds).count c = 0 := by
  rw [List.count_eq_zero]
  intro hmem
  obtain ⟨p, hp, hcp⟩ := List.mem_flatMap.mp hmem
  have hvp := restoreCmds_vehOf p c hcp
  rw [hc] at hvp
  exact h p hp (Option.some.inj hvp).symm

theorem count_zero_of_vehOf_ne (acts : List Command) (veh : String)
    (h : ∀ x ∈ acts, x.vehOf ≠ some veh) (c : Command) (hc : c.vehOf = some veh) :
    acts.count c = 0 := by
  rw [List.count_eq_zero]
  intro hmem
  exact h c hmem hc

theorem count_restoreCmds_self (veh : String) (sv : Saved) :
    (restoreCmds (veh, sv)).count (Command.setColor veh sv.color) = 1 ∧
    (restoreCmds (veh, sv)).count (Command.setLaneChangeMode veh sv.mode) = 1 := by
  constructor <;> simp [restoreCmds, List.count_cons]

/-- C2: in any step of the toll coordinator, a registered vehicle that is
observed on the downstream (post-toll) edge has its saved color and
lane-change mode restored exactly once (each restore command occurs
exactly once among the step's commands) and is removed from the wait map
in that same step; a registered vehicle not observed there receives no
color or lane-change command at all and stays registered with its saved
values unchanged. -/
theorem toll_restore_exactly_once (s : BridgeState) (o : Obs) (veh : String) (sv : Saved)
    (hmem : alookup s.carsWaitingForToll veh = some sv)
    (hndm : (s.carsWaitingForToll.map Prod.fst).Nodup)
    (hndo : (o.vehs.map Prod.fst).Nodup) :
    ((obsOf o veh).edge = EDGE_AFTER_TOLL →
      (tollStep s o).2.count (Command.setColor veh sv.color) = 1 ∧
      (tollStep s o).2.count (Command.setLaneChangeMode veh sv.mode) = 1 ∧
      alookup (tollStep s o).1.carsWaitingForToll veh = none) ∧
    (¬ (obsOf o veh).edge = EDGE_AFTER_TOLL →
      (∀ c ∈ (tollStep s o).2, c.vehOf ≠ some veh) ∧
      alookup (tollStep s o).1.carsWaitingForToll veh = some sv) := by
  obtain ⟨m1, m2, hm, hk1, hk2⟩ := alookup_decomp s.carsWaitingForToll veh sv hmem hndm
  have hsplit : (tollStep s o).2 =
      (tollPhase1 s o).2.2 ++
        (tollPhase2 o (tollPhase1 s o).1 (tollPhase1 s o).2.1).2.2.2 ∨
      (tollStep s o).2 =
      (tollPhase1 s o).2.2 ++
        (tollPhase2 o (tollPhase1 s o).1 (tollPhase1 s o).2.1).2.2.2 ++
        [Command.setTrafficLight TB_TL_ID (tollNewTls s o)] := by
    simp only [tollStep]
    by_cases h : tollNewTls s o ≠ s.tlState
    · right
      rw [if_pos h]
    · left
      rw [if_neg h]
  have hmap : (tollStep s o).1.carsWaitingForToll =
      (tollPhase2 o (tollPhase1 s o).1 (tollPhase1 s o).2.1).1 := by
    simp only [tollStep]
    by_cases h : tollNewTls s o ≠ s.tlState
    · rw [if_pos h]
    · rw [if_neg h]
  constructor
  · -- observed downstream: restored exactly once and removed
    intro hA
    have hveh : ∀ lane car, car ∈ carsInLane o EDGE_BEFORE_TOLL lane → car.1 ≠ veh := by
      intro lane car hcar heq
      have hbe := carsInLane_key_edge o hndo EDGE_BEFORE_TOLL lane car hcar
      rw [heq, hA] at hbe
      exact absurd hbe (by decide)
    have hptrue :
        (fun p : String × Saved => decide ((obsOf o p.1).edge = EDGE_AFTER_TOLL)) (veh, sv) =
          true := by
      simp [hA]
    have hA1counts : ∀ c, c.vehOf = some veh →
        ((tollPhase1 s o).2.2).count c = (restoreCmds (veh, sv)).count c := by
      intro c hc
      rw [tollPhase1_acts, hm, List.filter_append, List.filter_cons, if_pos hptrue,
        List.flatMap_append, List.flatMap_cons, List.count_append, List.count_append]
      rw [count_flatMap_restore_zero _ veh
          (fun p hp => hk1 p (List.mem_filter.mp hp).1) c hc,
        count_flatMap_restore_zero _ veh
          (fun p hp => hk2 p (List.mem_filter.mp hp).1) c hc]
      omega
    have hA2veh : ∀ c ∈ (tollPhase2 o (tollPhase1 s o).1 (tollPhase1 s o).2.1).2.2.2,
        c.vehOf ≠ some veh := by
      intro c hc
      obtain ⟨lane, car, hcar, hv⟩ := tollPhase2_acts_vehOf o _ _ c hc
      rw [hv]
      intro hsome
      exact hveh lane car hcar (Option.some.inj hsome)
    have hcount : ∀ c, c.vehOf = some veh →
        (tollStep s o).2.count c = (restoreCmds (veh, sv)).count c := by
      intro c hc
      have hz2 := count_zero_of_vehOf_ne _ veh hA2veh c hc
      have hztl : ([Command.setTrafficLight TB_TL_ID (tollNewTls s o)]).count c = 0 := by
        rw [List.count_eq_zero]
        intro hmem2
        rw [List.mem_singleton.mp hmem2] at hc
        cases hc
      rcases hsplit with h | h <;> rw [h]
      · rw [List.count_append, hA1counts c hc, hz2]
        omega
      · rw [List.count_append, List.count_append, hA1counts c hc, hz2, hztl]
        omega
    refine ⟨?_, ?_, ?_⟩
    · rw [hcount (Command.setColor veh sv.color) rfl]
      exact (count_restoreCmds_self veh sv).1
    · rw [hcount (Command.setLaneChangeMode veh sv.mode) rfl]
      exact (count_restoreCmds_self veh sv).2
    · rw [hmap]
      apply tollPhase2_map_none o _ _ veh hveh
      rw [tollPhase1_map, hm, List.filter_append, List.filter_cons]
      have hpfalse :
          ¬ ((fun p : String × Saved =>
            decide (¬ (obsOf o p.1).edge = EDGE_AFTER_TOLL)) (veh, sv) = true) := by
        simp [hA]
      rw [if_neg hpfalse]
      apply alookup_eq_none
      intro p hp
      rcases List.mem_append.mp hp with h | h
      · exact hk1 p (List.mem_filter.mp h).1
      · exact hk2 p (List.mem_filter.mp h).1
  · -- not downstream: untouched and still registered
    intro hB
    have hrem : alookup (tollPhase1 s o).1 veh = some sv := by
      rw [tollPhase1_map, hm, List.filter_append, List.filter_cons]
      have hptrue :
          (fun p : String × Saved =>
            decide (¬ (obsOf o p.1).edge = EDGE_AFTER_TOLL)) (veh, sv) = true := by
        simp [hB]
      rw [if_pos hptrue]
      rw [alookup_append_none _ _ veh
        (alookup_eq_none _ veh (fun p hp => hk1 p (List.mem_filter.mp hp).1))]
      simp [alookup]
    obtain ⟨hmap2, hacts2⟩ :=
      tollPhase2_keeps_registered o (tollPhase1 s o).1 (tollPhase1 s o).2.1 veh sv hrem
    have hA1veh : ∀ c ∈ (tollPhase1 s o).2.2, c.vehOf ≠ some veh := by
      intro c hc
      rw [tollPhase1_acts] at hc
      obtain ⟨p, hp, hcp⟩ := List.mem_flatMap.mp hc
      obtain ⟨hpm, hpred⟩ := List.mem_filter.mp hp
      rw [restoreCmds_vehOf p c hcp]
      intro hsome
      apply hB
      rw [← Option.some.inj hsome]
      exact of_decide_eq_true hpred
    constructor
    · intro c hc
      rcases hsplit with h | h <;> rw [h] at hc
      · rcases List.mem_append.mp hc with h2 | h2
        · exact hA1veh c h2
        · exact hacts2 c h2
      · rcases List.mem_append.mp hc with h2 | h2
        · rcases List.mem_append.mp h2 with h3 | h3
          · exact hA1veh c h3
          · exact hacts2 c h3
        · rw [List.mem_singleton.mp h2]
          intro hsome
          cases hsome
    · rw [hmap]
      exact hmap2

/-- The C2 scenario state: `V` is registered in the toll wait map with
saved mode 1621 and saved color (255, 255, 0, 0). -/
def sC2 : BridgeState where
  carsWaitingForToll := [("V", { mode := 1621, color := (255, 255, 0, 0) })]
  carsBeforeRamp := []
  tollWaitTime := [5]
  tlState := ⟨List.replicate NUM_TOLL_LANES 'G'⟩

/-- The C2 scenario observation: `V` has reached the downstream post-toll
edge. -/
def oC2 : Obs where
  vehs := [("V",
    { edge := EDGE_AFTER_TOLL, lane := 0, pos := 10, lcMode := 512,
      color := (255, 0, 255, 0) })]
  drawRegular := fun _ => 99
  drawFast := fun _ => 77

/-- Witness for `toll_restore_exactly_once`: the registered vehicle `V`
observed on the post-toll edge. -/
theorem toll_restore_exactly_once_witness :
    alookup sC2.carsWaitingForToll "V" = some { mode := 1621, color := (255, 255, 0, 0) } ∧
    (sC2.carsWaitingForToll.map Prod.fst).Nodup ∧
    (oC2.vehs.map Prod.fst).Nodup ∧
    (obsOf oC2 "V").edge = EDGE_AFTER_TOLL ∧
    (((obsOf oC2 "V").edge = EDGE_AFTER_TOLL →
      (tollStep sC2 oC2).2.count (Command.setColor "V" (255, 255, 0, 0)) = 1 ∧
      (tollStep sC2 oC2).2.count (Command.setLaneChangeMode "V" 1621) = 1 ∧
      alookup (tollStep sC2 oC2).1.carsWaitingForToll "V" = none) ∧
     (¬ (obsOf oC2 "V").edge = EDGE_AFTER_TOLL →
      (∀ c ∈ (tollStep sC2 oC2).2, c.vehOf ≠ some "V") ∧
      alookup (tollStep sC2 oC2).1.carsWaitingForToll "V" =
        some { mode := 1621, color := (255, 255, 0, 0) })) := by
  have h1 : alookup sC2.carsWaitingForToll "V" =
      some { mode := 1621, color := (255, 255, 0, 0) } := by
    simp [sC2, alookup]
  have h2 : (sC2.carsWaitingForToll.map Prod.fst).Nodup := by simp [sC2]
  have h3 : (oC2.vehs.map Prod.fst).Nodup := by simp [oC2]
  have h4 : (obsOf oC2 "V").edge = EDGE_AFTER_TOLL := by simp [obsOf, alookup, oC2]
  exact ⟨h1, h2, h3, h4,
    toll_restore_exactly_once sC2 oC2 "V" { mode := 1621, color := (255, 255, 0, 0) } h1 h2 h3⟩

end Flow
